import Mathlib

/-!
Verification of the VMonClient peak-aggregation sampler
(`vm_monitor/vm_monitor_client.py`, `vm_monitor/vm_monitor_api.py`) against its
natural-language specification.  Python floats are modelled as rationals,
Python ints as integers; a value that an exception would carry away is
modelled with `Except`/`Option`.
-/

namespace VMon

/-- The `UsageStats` dataclass of `vm_monitor_client.py`: per-core cpu
percentages plus memory, disk and GPU scalars.  Floats become `ℚ`,
ints become `ℤ`. -/
structure UsageStats where
  cpu : List ℚ
  mem_used_mb : ℤ
  mem_total_mb : ℤ
  disk_used_mb : ℤ
  disk_total_mb : ℤ
  gpu_proc : ℚ
  gpu_mem_used : ℤ
  gpu_mem_total : ℤ
deriving Repr, DecidableEq

/-- Model of `UsageStats.reset` from the source: `self.cpu = [0.0] * len(self.cpu)` and
every scalar field — used *and* total — is assigned `0`. -/
def UsageStats.reset (s : UsageStats) : UsageStats :=
  { cpu := List.replicate s.cpu.length 0
    mem_used_mb := 0
    mem_total_mb := 0
    disk_used_mb := 0
    disk_total_mb := 0
    gpu_proc := 0
    gpu_mem_used := 0
    gpu_mem_total := 0 }

/-- Model of `UsageStats(cpu=[0.0] * num_cpus)` as built in `VMMonitor.__init__`:
all dataclass defaults are zero. -/
def freshStats (numCpus : Nat) : UsageStats :=
  { cpu := List.replicate numCpus 0
    mem_used_mb := 0
    mem_total_mb := 0
    disk_used_mb := 0
    disk_total_mb := 0
    gpu_proc := 0
    gpu_mem_used := 0
    gpu_mem_total := 0 }

/-- The `GPUType` enum of the source. -/
inductive GPUType where
  | CPU_ONLY
  | NVIDIA_GPU
  | AMD_GPU
deriving Repr, DecidableEq

/-- One pass of the loop body
`self.peak_usage_stats.cpu[i] = max(self.peak_usage_stats.cpu[i], self.current_usage_stats.cpu[i])`
at index `i`.  An out-of-range read on either list is Python's `IndexError`,
modelled as `.error` carrying the (unchanged at this index) peak list. -/
def cpuFoldStep (p c : List ℚ) (i : Nat) : Except (List ℚ) (List ℚ) :=
  match p.get? i, c.get? i with
  | some a, some b => .ok (p.set i (max a b))
  | _, _ => .error p

/-- The loop `for i in range(num_cpus)` of `update_peak_usage`, run over
indices `0, …, n-1` in order; on an `IndexError` the indices already
processed stay updated (the `.error` payload). -/
def cpuFold (c p : List ℚ) : Nat → Except (List ℚ) (List ℚ)
  | 0 => .ok p
  | n + 1 =>
    match cpuFold c p n with
    | .ok p' => cpuFoldStep p' c n
    | .error e => .error e

/-- Model of `VMMonitor.update_peak_usage`: per-index max over the cpu list, max for
`mem_used_mb`/`disk_used_mb`, overwrite for `mem_total_mb`/`disk_total_mb`,
and — only when a GPU was detected — max for `gpu_proc`/`gpu_mem_used` and
overwrite for `gpu_mem_total`.  An `IndexError` in the cpu loop propagates
(`.error`), with the scalar fields still untouched. -/
def updatePeakUsage (numCpus : Nat) (gpuType : GPUType)
    (peak cur : UsageStats) : Except UsageStats UsageStats :=
  match cpuFold cur.cpu peak.cpu numCpus with
  | .error p => .error { peak with cpu := p }
  | .ok newCpu =>
    let base : UsageStats :=
      { peak with
        cpu := newCpu
        mem_used_mb := max peak.mem_used_mb cur.mem_used_mb
        disk_used_mb := max peak.disk_used_mb cur.disk_used_mb
        mem_total_mb := cur.mem_total_mb
        disk_total_mb := cur.disk_total_mb }
    if gpuType = GPUType.CPU_ONLY then .ok base
    else .ok { base with
      gpu_proc := max peak.gpu_proc cur.gpu_proc
      gpu_mem_used := max peak.gpu_mem_used cur.gpu_mem_used
      gpu_mem_total := cur.gpu_mem_total }

/-- Folding a sequence of fully-parsed samples into an accumulator, one
`update_peak_usage` per sample (each sample being the `current_usage_stats`
written by `get_current_usage`). -/
def foldSamples (numCpus : Nat) (gpuType : GPUType)
    (acc : UsageStats) : List UsageStats → Except UsageStats UsageStats
  | [] => .ok acc
  | s :: ss =>
    match updatePeakUsage numCpus gpuType acc s with
    | .ok a => foldSamples numCpus gpuType a ss
    | .error e => .error e

/-- State carried across iterations of `VMMonitor.run`: the peak accumulator
and the `next_report` wall-clock deadline (instants as rationals, seconds). -/
structure RunState where
  peak : UsageStats
  nextReport : ℚ
deriving Repr, DecidableEq

/-- Outcome of one iteration of `VMMonitor.run`'s `while True` body:
either the loop continues with a new state (recording how many
`log_peak_stats` flushes the iteration performed), or an uncaught Python
exception propagates out of `run` — the process terminates — with the
state it left behind. -/
inductive StepResult where
  | ok (st : RunState) (flushes : Nat)
  | crash (st : RunState)
deriving Repr, DecidableEq

/-- One iteration of `VMMonitor.run`.  Inputs from the environment:
`sampleResult` is `some cur` when `get_current_usage` returned normally
having written `cur` into `current_usage_stats`, `none` when it raised
(psutil failure, `nvidia-smi` subprocess failure, or unparsable output —
`run` has no `try`/`except`, so the exception escapes before any fold);
`tCheck` is `datetime.now()` at the `if datetime.now() >= next_report`
test; `sinkOk` tells whether `log_peak_stats` (its db adds and commits)
returned normally; `tAfterFlush` is the `datetime.now()` evaluated when
recomputing `next_report` after a flush. -/
def runStep (numCpus : Nat) (gpuType : GPUType) (st : RunState)
    (sampleResult : Option UsageStats) (tCheck : ℚ) (sinkOk : Bool)
    (tAfterFlush : ℚ) (reportInterval : ℚ) : StepResult :=
  match sampleResult with
  | none => .crash st
  | some cur =>
    match updatePeakUsage numCpus gpuType st.peak cur with
    | .error p => .crash { st with peak := p }
    | .ok p =>
      if st.nextReport ≤ tCheck then
        if sinkOk then
          .ok { peak := p.reset, nextReport := tAfterFlush + reportInterval } 1
        else
          .crash { st with peak := p }
      else
        .ok { st with peak := p } 0

/-- Start time of the tick after a sequence of ticks, from `run`'s shape:
each iteration's body takes some duration (psutil's blocking
`cpu_percent(interval=1)`, the fold, a possible flush) and then executes the
fixed `time.sleep(self.sample_interval)`.  `tickStart t0 i ds` is the start
instant of the iteration following bodies of durations `ds`. -/
def tickStart (t0 sampleInterval : ℚ) : List ℚ → ℚ
  | [] => t0
  | d :: ds => tickStart (t0 + d + sampleInterval) sampleInterval ds

/-- Outcome of one `subprocess.run([cmd], ...)` probe used by
`check_gpu_type`: the command ran and exited 0, ran and exited nonzero, or
was not found on the system. -/
inductive ProbeResult where
  | success
  | nonzeroExit
  | notFound
deriving Repr, DecidableEq

/-- The Python exceptions `subprocess.run(..., check=True)` can raise. -/
inductive SubprocessError where
  | calledProcessError
  | fileNotFoundError
deriving Repr, DecidableEq

/-- Model of `subprocess.run([cmd], stdout=PIPE, stderr=DEVNULL, check=True)` used as
a boolean: with `check=True` a nonzero exit raises `CalledProcessError` and
a missing binary raises `FileNotFoundError`; on success it returns a
`CompletedProcess` object, which is always truthy. -/
def subprocessRunCheck : ProbeResult → Except SubprocessError Bool
  | .success => .ok true
  | .nonzeroExit => .error .calledProcessError
  | .notFound => .error .fileNotFoundError

/-- Model of `VMMonitor.check_gpu_type`, called once from `__init__`:
`if subprocess.run(['nvidia-smi'], ..., check=True): return NVIDIA_GPU
elif subprocess.run(['rocm-smi'], ..., check=True): return AMD_GPU
else: return CPU_ONLY`, with any exception from the probes propagating out
of the constructor. -/
def check_gpu_type (nv amd : ProbeResult) : Except SubprocessError GPUType :=
  match subprocessRunCheck nv with
  | .error e => .error e
  | .ok t =>
    if t then .ok GPUType.NVIDIA_GPU
    else
      match subprocessRunCheck amd with
      | .error e => .error e
      | .ok t2 => if t2 then .ok GPUType.AMD_GPU else .ok GPUType.CPU_ONLY

/-- The list `REQUIRED_KEYS = [SAMPLE_INTERVAL, REPORT_INTERVAL, DB_FILE_PATH]`. -/
def REQUIRED_KEYS : List String :=
  ["sample_interval", "report_interval", "db_file_path"]

/-- Model of `validate_config`: loop over `REQUIRED_KEYS`, returning `False` as soon
as a key is not in the config dict, `True` after the loop.  The config dict
is modelled by its list of present keys. -/
def validate_config (config : List String) : Bool :=
  REQUIRED_KEYS.all (fun k => config.contains k)

/-- The `__main__` block after loading the YAML: `if validate_config(config):
main(config) else: print(...)`.  `main` constructs the `VMMonitor` (the
Sampler) and calls `run`; we record whether that construction happens by
returning the config handed to `main`, or `none` when the script only
prints the error and exits. -/
def scriptEntry (config : List String) : Option (List String) :=
  if validate_config config then some config else none

/-- A Python `datetime.datetime` by its seven components.  Python keeps
`1 ≤ month ≤ 12`, `1 ≤ day ≤ 31`, `hour ≤ 23`, `minute ≤ 59`,
`second ≤ 59`, `microsecond ≤ 999999` as type invariants; under those
bounds the chronological order is the order of `PyDateTime.key` below. -/
structure PyDateTime where
  year : ℕ
  month : ℕ
  day : ℕ
  hour : ℕ
  minute : ℕ
  second : ℕ
  microsecond : ℕ
deriving Repr, DecidableEq

/-- Mixed-radix encoding of a datetime; chronological comparison of two
in-bounds datetimes is `≤` on their keys. -/
def PyDateTime.key (d : PyDateTime) : ℕ :=
  (((((d.year * 13 + d.month) * 32 + d.day) * 24 + d.hour) * 60
      + d.minute) * 60 + d.second) * 1000000 + d.microsecond

/-- Model of `VMMonitorAPI.get_start_date`: `start_date.replace(hour=0, minute=0,
second=0, microsecond=0)` — the start of the date's day. -/
def get_start_date (d : PyDateTime) : PyDateTime :=
  { d with hour := 0, minute := 0, second := 0, microsecond := 0 }

/-- Model of `VMMonitorAPI.get_end_date`: `end_date.replace(hour=23, minute=59,
second=59, microsecond=999999)` — the end of the date's day. -/
def get_end_date (d : PyDateTime) : PyDateTime :=
  { d with hour := 23, minute := 59, second := 59, microsecond := 999999 }

/-- A row of the `samples` table as `get_data_in_range` sees it: its
timestamp plus an id distinguishing rows. -/
structure DBSample where
  id : ℕ
  timestamp : PyDateTime
deriving Repr, DecidableEq

/-- Model of `VMMonitorAPI.get_data_in_range`: `session.query(Sample).filter(
Sample.timestamp >= start_date, Sample.timestamp <= end_date).all()` over
the stored rows. -/
def get_data_in_range (stored : List DBSample) (a b : PyDateTime) :
    List DBSample :=
  stored.filter (fun s => a.key ≤ s.timestamp.key ∧ s.timestamp.key ≤ b.key)

/-- The query pipeline of `get_usage_data`: normalize the two parsed date
strings with `get_start_date`/`get_end_date`, then `get_data_in_range`. -/
def get_usage_data (stored : List DBSample) (startD endD : PyDateTime) :
    List DBSample :=
  get_data_in_range stored (get_start_date startD) (get_end_date endD)

/-! ### Helper lemmas on `List.foldl max` and `cpuFold` -/

theorem foldl_max_mono {α : Type} [LinearOrder α] (l : List α) {a b : α}
    (h : a ≤ b) : l.foldl max a ≤ l.foldl max b := by
  induction l generalizing a b with
  | nil => exact h
  | cons x xs ih => exact ih (max_le_max h le_rfl)

theorem le_foldl_max {α : Type} [LinearOrder α] (a : α) (l : List α) :
    a ≤ l.foldl max a := by
  induction l generalizing a with
  | nil => exact le_rfl
  | cons x xs ih => exact le_trans (le_max_left a x) (ih _)

theorem mem_le_foldl_max {α : Type} [LinearOrder α] {x : α} {l : List α}
    (a : α) (h : x ∈ l) : x ≤ l.foldl max a := by
  induction l generalizing a with
  | nil => cases h
  | cons y ys ih =>
    rcases List.mem_cons.mp h with rfl | h2
    · exact le_trans (le_max_right a x) (le_foldl_max _ _)
    · exact ih _ h2

theorem foldl_max_eq_or_mem {α : Type} [LinearOrder α] (a : α) (l : List α) :
    l.foldl max a = a ∨ l.foldl max a ∈ l := by
  induction l generalizing a with
  | nil => left; rfl
  | cons x xs ih =>
    rcases ih (max a x) with h | h
    · rw [List.foldl_cons, h]
      rcases max_choice a x with h2 | h2
      · left; exact h2
      · right; rw [h2]; exact List.mem_cons_self x xs
    · right
      rw [List.foldl_cons]
      exact List.mem_cons_of_mem x h

/-- Over a nonempty list of nonnegative values, `foldl max 0` is attained
by a member and bounds every member: it is the maximum of the list. -/
theorem foldl_max_zero_spec {α : Type} [LinearOrderedAddCommGroup α]
    {l : List α} (hne : l ≠ []) (hpos : ∀ x ∈ l, 0 ≤ x) :
    l.foldl max 0 ∈ l ∧ ∀ x ∈ l, x ≤ l.foldl max 0 := by
  refine ⟨?_, fun x hx => mem_le_foldl_max 0 hx⟩
  rcases foldl_max_eq_or_mem 0 l with h | h
  · match l, hne with
    | y :: ys, _ =>
      have hy : (0 : α) ≤ y := hpos y (List.mem_cons_self y ys)
      have hy2 : y ≤ (y :: ys).foldl max 0 :=
        mem_le_foldl_max 0 (List.mem_cons_self y ys)
      have : y = (y :: ys).foldl max 0 := le_antisymm hy2 (by rw [h]; exact hy)
      rw [← this]
      exact List.mem_cons_self y ys
  · exact h

theorem cpuFold_ok (c p : List ℚ) (n : Nat) (hp : n ≤ p.length)
    (hc : n ≤ c.length) :
    ∃ r, cpuFold c p n = .ok r ∧ r.length = p.length ∧
      (∀ i, i < n → r.getD i 0 = max (p.getD i 0) (c.getD i 0)) ∧
      (∀ i, n ≤ i → r.get? i = p.get? i) := by
  induction n with
  | zero => exact ⟨p, rfl, rfl, fun i hi => absurd hi (Nat.not_lt_zero i),
      fun i _ => rfl⟩
  | succ n ih =>
    obtain ⟨r, hr, hlen, hlt, hge⟩ :=
      ih (Nat.le_of_succ_le hp) (Nat.le_of_succ_le hc)
    have hnp : n < p.length := Nat.lt_of_succ_le hp
    have hnc : n < c.length := Nat.lt_of_succ_le hc
    have hnr : n < r.length := hlen ▸ hnp
    have hrg : r.get? n = some (p.getD n 0) := by
      rw [hge n le_rfl]
      simp [List.get?_eq_getElem?, List.getElem?_eq_getElem hnp,
        List.getD_eq_getElem?_getD]
    have hcg : c.get? n = some (c.getD n 0) := by
      simp [List.get?_eq_getElem?, List.getElem?_eq_getElem hnc,
        List.getD_eq_getElem?_getD]
    refine ⟨r.set n (max (p.getD n 0) (c.getD n 0)), ?_, ?_, ?_, ?_⟩
    · show cpuFold c p (n + 1) = _
      rw [cpuFold, hr]
      show cpuFoldStep r c n = _
      rw [cpuFoldStep, hrg, hcg]
    · rw [List.length_set, hlen]
    · intro i hi
      rcases Nat.lt_succ_iff_lt_or_eq.mp hi with h | rfl
      · rw [List.getD_eq_getElem?_getD, List.getElem?_set_ne (Nat.ne_of_gt h),
          ← List.getD_eq_getElem?_getD]
        exact hlt i h
      · rw [List.getD_eq_getElem?_getD, List.getElem?_set_self' ,
          List.getElem?_eq_getElem hnr]
        rfl
    · intro i hi
      rw [List.get?_eq_getElem?,
        List.getElem?_set_ne (Nat.ne_of_lt (Nat.lt_of_succ_le hi)),
        ← List.get?_eq_getElem?, hge i (Nat.le_of_succ_le hi)]

theorem updatePeakUsage_ok (numCpus : Nat) (gpuType : GPUType)
    (peak cur : UsageStats) (hp : numCpus ≤ peak.cpu.length)
    (hc : numCpus ≤ cur.cpu.length) :
    ∃ a, updatePeakUsage numCpus gpuType peak cur = .ok a ∧
      a.cpu.length = peak.cpu.length ∧
      (∀ i, i < numCpus →
        a.cpu.getD i 0 = max (peak.cpu.getD i 0) (cur.cpu.getD i 0)) ∧
      a.mem_used_mb = max peak.mem_used_mb cur.mem_used_mb ∧
      a.disk_used_mb = max peak.disk_used_mb cur.disk_used_mb ∧
      a.mem_total_mb = cur.mem_total_mb ∧
      a.disk_total_mb = cur.disk_total_mb ∧
      a.gpu_proc = (if gpuType = GPUType.CPU_ONLY then peak.gpu_proc
        else max peak.gpu_proc cur.gpu_proc) ∧
      a.gpu_mem_used = (if gpuType = GPUType.CPU_ONLY then peak.gpu_mem_used
        else max peak.gpu_mem_used cur.gpu_mem_used) ∧
      a.gpu_mem_total = (if gpuType = GPUType.CPU_ONLY then peak.gpu_mem_total
        else cur.gpu_mem_total) := by
  obtain ⟨r, hr, hlen, hlt, _⟩ := cpuFold_ok cur.cpu peak.cpu numCpus hp hc
  by_cases hg : gpuType = GPUType.CPU_ONLY
  · refine ⟨{ peak with
      cpu := r,
      mem_used_mb := max peak.mem_used_mb cur.mem_used_mb,
      disk_used_mb := max peak.disk_used_mb cur.disk_used_mb,
      mem_total_mb := cur.mem_total_mb,
      disk_total_mb := cur.disk_total_mb }, ?_, hlen, hlt, rfl, rfl,
      rfl, rfl, ?_, ?_, ?_⟩
    · unfold updatePeakUsage
      rw [hr]
      simp [hg]
    · simp [hg]
    · simp [hg]
    · simp [hg]
  · refine ⟨{
      cpu := r,
      mem_used_mb := max peak.mem_used_mb cur.mem_used_mb,
      mem_total_mb := cur.mem_total_mb,
      disk_used_mb := max peak.disk_used_mb cur.disk_used_mb,
      disk_total_mb := cur.disk_total_mb,
      gpu_proc := max peak.gpu_proc cur.gpu_proc,
      gpu_mem_used := max peak.gpu_mem_used cur.gpu_mem_used,
      gpu_mem_total := cur.gpu_mem_total }, ?_, hlen, hlt, rfl, rfl,
      rfl, rfl, ?_, ?_, ?_⟩
    · unfold updatePeakUsage
      rw [hr]
      simp [hg]
    · simp [hg]
    · simp [hg]
    · simp [hg]

theorem foldSamples_ok (numCpus : Nat) (gpuType : GPUType)
    (acc : UsageStats) (ss : List UsageStats)
    (hacc : numCpus ≤ acc.cpu.length)
    (hss : ∀ s ∈ ss, numCpus ≤ s.cpu.length) :
    ∃ w, foldSamples numCpus gpuType acc ss = .ok w ∧
      w.cpu.length = acc.cpu.length ∧
      (∀ i, i < numCpus → w.cpu.getD i 0 =
        (ss.map (fun s => s.cpu.getD i 0)).foldl max (acc.cpu.getD i 0)) ∧
      w.mem_used_mb =
        (ss.map (fun s => s.mem_used_mb)).foldl max acc.mem_used_mb ∧
      w.disk_used_mb =
        (ss.map (fun s => s.disk_used_mb)).foldl max acc.disk_used_mb ∧
      w.mem_total_mb =
        (ss.map (fun s => s.mem_total_mb)).getLastD acc.mem_total_mb ∧
      w.disk_total_mb =
        (ss.map (fun s => s.disk_total_mb)).getLastD acc.disk_total_mb ∧
      w.gpu_proc = (if gpuType = GPUType.CPU_ONLY then acc.gpu_proc
        else (ss.map (fun s => s.gpu_proc)).foldl max acc.gpu_proc) ∧
      w.gpu_mem_used = (if gpuType = GPUType.CPU_ONLY then acc.gpu_mem_used
        else (ss.map (fun s => s.gpu_mem_used)).foldl max acc.gpu_mem_used) ∧
      w.gpu_mem_total = (if gpuType = GPUType.CPU_ONLY then acc.gpu_mem_total
        else (ss.map (fun s => s.gpu_mem_total)).getLastD acc.gpu_mem_total)
    := by
  induction ss generalizing acc with
  | nil =>
    exact ⟨acc, rfl, rfl, fun i _ => rfl, rfl, rfl, rfl, rfl, by simp, by simp,
      by simp⟩
  | cons s ss ih =>
    obtain ⟨a, ha, halen, halt, ham, had, hamt, hadt, hagp, hagm, hagt⟩ :=
      updatePeakUsage_ok numCpus gpuType acc s hacc
        (hss s (List.mem_cons_self s ss))
    obtain ⟨w, hw, hwlen, hwlt, hwm, hwd, hwmt, hwdt, hwgp, hwgm, hwgt⟩ :=
      ih a (halen ▸ hacc) (fun t ht => hss t (List.mem_cons_of_mem s ht))
    refine ⟨w, ?_, ?_, ?_, ?_, ?_, ?_, ?_, ?_, ?_, ?_⟩
    · rw [foldSamples, ha]
      exact hw
    · rw [hwlen, halen]
    · intro i hi
      rw [hwlt i hi, List.map_cons, List.foldl_cons, halt i hi]
    · rw [hwm, ham, List.map_cons, List.foldl_cons]
    · rw [hwd, had, List.map_cons, List.foldl_cons]
    · rw [hwmt, hamt, List.map_cons, List.getLastD_cons]
    · rw [hwdt, hadt, List.map_cons, List.getLastD_cons]
    · by_cases hg : gpuType = GPUType.CPU_ONLY
      · rw [if_pos hg] at hagp ⊢
        rw [if_pos hg] at hwgp
        rw [hwgp, hagp]
      · rw [if_neg hg] at hagp ⊢
        rw [if_neg hg] at hwgp
        rw [hwgp, hagp, List.map_cons, List.foldl_cons]
    · by_cases hg : gpuType = GPUType.CPU_ONLY
      · rw [if_pos hg] at hagm ⊢
        rw [if_pos hg] at hwgm
        rw [hwgm, hagm]
      · rw [if_neg hg] at hagm ⊢
        rw [if_neg hg] at hwgm
        rw [hwgm, hagm, List.map_cons, List.foldl_cons]
    · by_cases hg : gpuType = GPUType.CPU_ONLY
      · rw [if_pos hg] at hagt ⊢
        rw [if_pos hg] at hwgt
        rw [hwgt, hagt]
      · rw [if_neg hg] at hagt ⊢
        rw [if_neg hg] at hwgt
        rw [hwgt, hagt, List.map_cons, List.getLastD_cons]

/-- Over nonempty map images the `getLastD` of a mapped list is the map of
the `getLastD`, provided the defaults correspond. -/
theorem getLastD_map {α β : Type} (f : α → β) (d : α) :
    ∀ l : List α, (l.map f).getLastD (f d) = f (l.getLastD d)
  | [] => rfl
  | x :: xs => by
    rw [List.map_cons, List.getLastD_cons, List.getLastD_cons]
    exact getLastD_map f x xs

/-! ### Claim theorems -/

/-- C3 (counterexample): with a sampling failure on a tick (`psutil` or the
`nvidia-smi` query raising, `sampleResult = none`), the loop iteration does
not continue — `run` has no `try`/`except`, the exception escapes and the
process terminates, contradicting "the process never terminates". -/
theorem c3_counterexample :
    runStep 1 GPUType.CPU_ONLY ⟨freshStats 1, 10⟩ none 0 true 0 5
      = .crash ⟨freshStats 1, 10⟩ ∧
    ¬ ∃ st f, runStep 1 GPUType.CPU_ONLY ⟨freshStats 1, 10⟩ none 0 true 0 5
      = StepResult.ok st f := by
  refine ⟨rfl, ?_⟩
  rintro ⟨st, f, h⟩
  simp [runStep] at h

/-- C3 (amended): when `get_current_usage` raises, no fold occurs and the
peak accumulator is left byte-for-byte unchanged, but the uncaught
exception terminates `run` (the tick is not "skipped"; the loop ends). -/
theorem c3_amended (numCpus : Nat) (gpuType : GPUType) (st : RunState)
    (tCheck : ℚ) (sinkOk : Bool) (tAfterFlush reportInterval : ℚ) :
    runStep numCpus gpuType st none tCheck sinkOk tAfterFlush reportInterval
      = .crash st := rfl

/-- C4 (counterexample): fold one sample with `mem_total_mb = 1000` into a
fresh single-core accumulator, then `reset()`: the totals are zeroed, not
left at the last-folded sample's totals. -/
theorem c4_counterexample :
    foldSamples 1 GPUType.CPU_ONLY (freshStats 1)
        [⟨[90], 100, 1000, 200, 5000, 0, 0, 0⟩]
      = .ok ⟨[90], 100, 1000, 200, 5000, 0, 0, 0⟩ ∧
    (UsageStats.reset ⟨[90], 100, 1000, 200, 5000, 0, 0, 0⟩)
      = ⟨[0], 0, 0, 0, 0, 0, 0, 0⟩ ∧
    (0 : ℤ) ≠ 1000 := by
  refine ⟨?_, ?_, by decide⟩ <;> rfl

/-- C4 (amended): `UsageStats.reset` zeroes every field — the used/percent
fields *and* the total/capacity fields (`mem_total_mb`, `disk_total_mb`,
`gpu_mem_total` are all assigned `0`, not kept); the cpu list keeps only
its length. -/
theorem c4_amended (s : UsageStats) :
    s.reset.cpu = List.replicate s.cpu.length 0 ∧
    s.reset.mem_used_mb = 0 ∧ s.reset.mem_total_mb = 0 ∧
    s.reset.disk_used_mb = 0 ∧ s.reset.disk_total_mb = 0 ∧
    s.reset.gpu_proc = 0 ∧ s.reset.gpu_mem_used = 0 ∧
    s.reset.gpu_mem_total = 0 :=
  ⟨rfl, rfl, rfl, rfl, rfl, rfl, rfl, rfl⟩

/-- C5 (code bug): `check_gpu_type` passes `check=True` to both probes, so
a host without a working `nvidia-smi` raises (`FileNotFoundError` or
`CalledProcessError`) out of the constructor instead of falling through to
the `rocm-smi` probe; conversely a successful `nvidia-smi` returns a truthy
`CompletedProcess`.  Hence the `AMD_GPU` and `CPU_ONLY` classifications are
unreachable, contradicting "probe NVIDIA, else AMD, else none". -/
theorem c5_probe_crash :
    (∀ nv amd, check_gpu_type nv amd ≠ .ok GPUType.CPU_ONLY) ∧
    (∀ nv amd, check_gpu_type nv amd ≠ .ok GPUType.AMD_GPU) ∧
    check_gpu_type .notFound .success = .error .fileNotFoundError ∧
    check_gpu_type .nonzeroExit .success = .error .calledProcessError := by
  refine ⟨?_, ?_, rfl, rfl⟩ <;>
    · intro nv amd
      cases nv <;> simp [check_gpu_type, subprocessRunCheck]

/-- C8: the monitor starts iff every required key (`sample_interval`,
`report_interval`, `db_file_path`) is present: `validate_config` is `false`
exactly when some required key is missing, and in that case the `__main__`
block never constructs the `VMMonitor` (startup-time refusal, `scriptEntry`
returns `none`). -/
theorem c8_startup_gate (config : List String) :
    (validate_config config = false ↔ ∃ k ∈ REQUIRED_KEYS, ¬ k ∈ config) ∧
    (scriptEntry config = none ↔ validate_config config = false) := by
  constructor
  · rw [← not_iff_not]
    push_neg
    simp [validate_config, List.all_eq_true]
  · rw [scriptEntry]
    constructor
    · intro h
      by_cases hv : validate_config config = true
      · rw [if_pos hv] at h
        cases h
      · simpa using hv
    · intro h
      rw [h]
      simp

/-- C9 (counterexample): with `sample_interval = 5` and three ticks whose
bodies each take 1 time unit, the fourth tick starts at `t = 18`, not at
`t = 15 = 3 × sample_interval`: the fixed `time.sleep(sample_interval)` at
the end of the loop body lets the cadence drift by the body duration,
contradicting "sleeps until sample_period has elapsed since the previous
tick's start". -/
theorem c9_counterexample :
    tickStart 0 5 [1, 1, 1] = 18 ∧ (18 : ℚ) ≠ 0 + 3 * 5 := by
  constructor
  · norm_num [tickStart]
  · norm_num

/-- C9 (amended): the loop sleeps a fixed `sample_interval` after each body
(`time.sleep(self.sample_interval)` with no monotonic-clock measurement),
so after `n` ticks of durations `ds` the next tick starts at
`t0 + sum(ds) + n * sample_interval`: the cadence drifts by the accumulated
body durations instead of holding a fixed period. -/
theorem c9_amended (t0 sampleInterval : ℚ) (ds : List ℚ) :
    tickStart t0 sampleInterval ds
      = t0 + ds.sum + ds.length * sampleInterval := by
  induction ds generalizing t0 with
  | nil => simp [tickStart]
  | cons d ds ih =>
    rw [tickStart, ih, List.sum_cons, List.length_cons]
    push_cast
    ring

/-- C10: `get_usage_data` returns exactly the stored rows whose timestamp
lies in the closed interval from `get_start_date(start)` — the start date
at 00:00:00.000000 — to `get_end_date(end)` — the end date at
23:59:59.999999 — so both endpoint days are included in full and nothing
outside the interval is returned. -/
theorem c10_query_range (stored : List DBSample) (startD endD : PyDateTime)
    (s : DBSample) :
    (s ∈ get_usage_data stored startD endD ↔
      s ∈ stored ∧ (get_start_date startD).key ≤ s.timestamp.key ∧
        s.timestamp.key ≤ (get_end_date endD).key) ∧
    get_start_date startD
      = ⟨startD.year, startD.month, startD.day, 0, 0, 0, 0⟩ ∧
    get_end_date endD
      = ⟨endD.year, endD.month, endD.day, 23, 59, 59, 999999⟩ := by
  refine ⟨?_, rfl, rfl⟩
  simp [get_usage_data, get_data_in_range, List.mem_filter, and_assoc]

/-- C2 (counterexample): at a due report deadline with a failing sink
(`log_peak_stats` raises, `sinkOk = false`), the iteration does not
continue with an advanced deadline — the exception escapes `run` (there is
no `try`/`except`), so there is no retry at a next flush boundary and the
deadline does not advance, contradicting the claim. -/
theorem c2_counterexample :
    runStep 1 GPUType.CPU_ONLY ⟨freshStats 1, 10⟩
        (some ⟨[90], 100, 1000, 200, 5000, 0, 0, 0⟩) 10 false 0 5
      = .crash ⟨⟨[90], 100, 1000, 200, 5000, 0, 0, 0⟩, 10⟩ ∧
    ¬ ∃ st f, runStep 1 GPUType.CPU_ONLY ⟨freshStats 1, 10⟩
        (some ⟨[90], 100, 1000, 200, 5000, 0, 0, 0⟩) 10 false 0 5
      = StepResult.ok st f := by
  refine ⟨rfl, ?_⟩
  rintro ⟨st, f, h⟩
  rw [show runStep 1 GPUType.CPU_ONLY ⟨freshStats 1, 10⟩
      (some ⟨[90], 100, 1000, 200, 5000, 0, 0, 0⟩) 10 false 0 5
      = .crash ⟨⟨[90], 100, 1000, 200, 5000, 0, 0, 0⟩, 10⟩ from rfl] at h
  cases h

/-- C2 (amended): when the flush is due and `log_peak_stats` raises, the
accumulator is indeed not reset (it keeps the folded window `p`) and the
deadline is not advanced — but only because the exception propagates out of
`run` and terminates the loop; there is no retry at a next boundary. -/
theorem c2_amended (numCpus : Nat) (gpuType : GPUType) (st : RunState)
    (cur p : UsageStats) (tCheck tAfterFlush reportInterval : ℚ)
    (hfold : updatePeakUsage numCpus gpuType st.peak cur = .ok p)
    (hdue : st.nextReport ≤ tCheck) :
    runStep numCpus gpuType st (some cur) tCheck false tAfterFlush
      reportInterval = .crash ⟨p, st.nextReport⟩ := by
  simp [runStep, hfold, if_pos hdue]

/-- C2 (witness): a concrete due-deadline tick with a failing sink crashes
with the unreset folded window and the unadvanced deadline. -/
theorem c2_witness :
    runStep 1 GPUType.CPU_ONLY ⟨freshStats 1, 10⟩
        (some ⟨[90], 100, 1000, 200, 5000, 0, 0, 0⟩) 12 false 0 5
      = .crash ⟨⟨[90], 100, 1000, 200, 5000, 0, 0, 0⟩, 10⟩ :=
  c2_amended 1 GPUType.CPU_ONLY ⟨freshStats 1, 10⟩
    ⟨[90], 100, 1000, 200, 5000, 0, 0, 0⟩
    ⟨[90], 100, 1000, 200, 5000, 0, 0, 0⟩ 12 0 5 rfl (by norm_num)

/-- C6: a loop iteration that wakes up 3 report intervals past the deadline
performs exactly one flush — the deadline test is a plain `if`, not a
catch-up loop — and sets the next deadline to `datetime.now()` after the
flush plus one `report_interval`; a following iteration before that new
deadline performs no flush. -/
theorem c6_single_flush (numCpus : Nat) (gpuType : GPUType) (st : RunState)
    (cur p cur2 p2 : UsageStats)
    (tCheck tAfterFlush reportInterval tCheck2 tAfter2 : ℚ) (sink2 : Bool)
    (hfold : updatePeakUsage numCpus gpuType st.peak cur = .ok p)
    (hlate : tCheck = st.nextReport + 3 * reportInterval)
    (hrep : 0 ≤ reportInterval)
    (hfold2 : updatePeakUsage numCpus gpuType p.reset cur2 = .ok p2)
    (hnotdue : tCheck2 < tAfterFlush + reportInterval) :
    runStep numCpus gpuType st (some cur) tCheck true tAfterFlush
        reportInterval
      = .ok ⟨p.reset, tAfterFlush + reportInterval⟩ 1 ∧
    runStep numCpus gpuType ⟨p.reset, tAfterFlush + reportInterval⟩
        (some cur2) tCheck2 sink2 tAfter2 reportInterval
      = .ok ⟨p2, tAfterFlush + reportInterval⟩ 0 := by
  constructor
  · have hdue : st.nextReport ≤ tCheck := by
      rw [hlate]
      linarith
    simp [runStep, hfold, if_pos hdue]
  · have h2 : ¬ tAfterFlush + reportInterval ≤ tCheck2 := not_le.mpr hnotdue
    simp only [runStep, hfold2]
    rw [if_neg h2]

/-- C6 (witness): deadline 10 missed until t = 25 = 10 + 3·5: the wake-up
iteration flushes once and sets the deadline to 26 + 5 = 31; the following
iteration at t = 28 does not flush. -/
theorem c6_witness :
    runStep 1 GPUType.CPU_ONLY ⟨freshStats 1, 10⟩
        (some ⟨[90], 100, 1000, 200, 5000, 0, 0, 0⟩) 25 true 26 5
      = .ok ⟨(UsageStats.reset ⟨[90], 100, 1000, 200, 5000, 0, 0, 0⟩),
          26 + 5⟩ 1 ∧
    runStep 1 GPUType.CPU_ONLY
        ⟨(UsageStats.reset ⟨[90], 100, 1000, 200, 5000, 0, 0, 0⟩), 26 + 5⟩
        (some ⟨[90], 100, 1000, 200, 5000, 0, 0, 0⟩) 28 true 29 5
      = .ok ⟨⟨[90], 100, 1000, 200, 5000, 0, 0, 0⟩, 26 + 5⟩ 0 :=
  c6_single_flush 1 GPUType.CPU_ONLY ⟨freshStats 1, 10⟩
    ⟨[90], 100, 1000, 200, 5000, 0, 0, 0⟩
    ⟨[90], 100, 1000, 200, 5000, 0, 0, 0⟩
    ⟨[90], 100, 1000, 200, 5000, 0, 0, 0⟩
    ⟨[90], 100, 1000, 200, 5000, 0, 0, 0⟩
    25 26 5 28 29 true rfl (by norm_num) (by norm_num) rfl (by norm_num)

/-- If the current sample's cpu list is shorter than the loop bound, the
cpu fold hits an `IndexError`: some iteration reads past the end. -/
theorem cpuFold_error_short (c p : List ℚ) :
    ∀ n, c.length < n → c.length ≤ p.length →
      ∃ e, cpuFold c p n = .error e := by
  intro n
  induction n with
  | zero => intro h _; exact absurd h (Nat.not_lt_zero _)
  | succ m ih =>
    intro hlt hle
    rcases Nat.lt_succ_iff_lt_or_eq.mp hlt with h | h
    · obtain ⟨e, he⟩ := ih h hle
      refine ⟨e, ?_⟩
      rw [cpuFold, he]
    · obtain ⟨r, hr, hlen, _, _⟩ :=
        cpuFold_ok c p m ((le_of_eq h.symm).trans hle) (le_of_eq h.symm)
      have hcn : c.get? m = none := by
        rw [List.get?_eq_getElem?]
        exact List.getElem?_eq_none (le_of_eq h)
      refine ⟨r, ?_⟩
      rw [cpuFold, hr]
      show cpuFoldStep r c m = .error r
      unfold cpuFoldStep
      rw [hcn]
      cases hrm : r.get? m
      · rfl
      · rfl

/-- C7 (counterexample): a sample with an empty cpu list folded into a
1-core accumulator raises `IndexError` out of `update_peak_usage` — the
mismatch is not "non-fatal", and the fold over the (empty) overlapping
prefix does not complete into an updated window. -/
theorem c7_counterexample :
    updatePeakUsage 1 GPUType.CPU_ONLY (freshStats 1)
        ⟨[], 100, 1000, 200, 5000, 0, 0, 0⟩
      = .error (freshStats 1) ∧
    ¬ ∃ w, updatePeakUsage 1 GPUType.CPU_ONLY (freshStats 1)
        ⟨[], 100, 1000, 200, 5000, 0, 0, 0⟩ = .ok w := by
  refine ⟨rfl, ?_⟩
  rintro ⟨w, h⟩
  rw [show updatePeakUsage 1 GPUType.CPU_ONLY (freshStats 1)
      ⟨[], 100, 1000, 200, 5000, 0, 0, 0⟩ = .error (freshStats 1)
      from rfl] at h
  cases h

/-- C7 (amended): `update_peak_usage` tolerates *extra* cores — it loops
only over indices `0 … num_cpus - 1`, ignoring any surplus entries of the
sample — but a sample with *fewer* cores than `num_cpus` makes the loop
index past the sample's list and an uncaught `IndexError` escapes: the fold
returns normally iff the sample has at least `num_cpus` entries. -/
theorem c7_amended (numCpus : Nat) (gpuType : GPUType) (peak cur : UsageStats)
    (hp : peak.cpu.length = numCpus) :
    (updatePeakUsage numCpus gpuType peak cur).isOk = true ↔
      numCpus ≤ cur.cpu.length := by
  constructor
  · intro h
    by_contra hlt
    push_neg at hlt
    obtain ⟨e, he⟩ := cpuFold_error_short cur.cpu peak.cpu numCpus hlt
      (le_of_lt (hp ▸ hlt))
    have : updatePeakUsage numCpus gpuType peak cur
        = .error { peak with cpu := e } := by
      unfold updatePeakUsage
      rw [he]
    rw [this] at h
    cases h
  · intro h
    obtain ⟨a, ha, _⟩ :=
      updatePeakUsage_ok numCpus gpuType peak cur (le_of_eq hp.symm) h
    rw [ha]
    rfl

/-- C7 (witness): a 2-core accumulator folding a 3-entry sample succeeds
(the extra core is ignored), matching `2 ≤ 3`. -/
theorem c7_witness :
    (updatePeakUsage 2 GPUType.CPU_ONLY ⟨[0, 0], 0, 0, 0, 0, 0, 0, 0⟩
        ⟨[50, 60, 70], 1, 2, 3, 4, 0, 0, 0⟩).isOk = true ↔
      2 ≤ ([50, 60, 70] : List ℚ).length :=
  c7_amended 2 GPUType.CPU_ONLY ⟨[0, 0], 0, 0, 0, 0, 0, 0, 0⟩
    ⟨[50, 60, 70], 1, 2, 3, 4, 0, 0, 0⟩ (by decide)

/-- The `foldl max 0` of a mapped field over a nonempty sample list with
nonnegative readings is attained by some sample and bounds every sample. -/
theorem max_over_samples {α : Type} [LinearOrderedAddCommGroup α]
    (ss : List UsageStats) (hne : ss ≠ []) (F : UsageStats → α)
    (hpos : ∀ s ∈ ss, 0 ≤ F s) (v : α) (hv : v = (ss.map F).foldl max 0) :
    (∃ s ∈ ss, v = F s) ∧ ∀ s ∈ ss, F s ≤ v := by
  subst hv
  have hne2 : ss.map F ≠ [] := by
    intro h
    exact hne (List.map_eq_nil_iff.mp h)
  have hpos2 : ∀ x ∈ ss.map F, 0 ≤ x := by
    intro x hx
    obtain ⟨s, hs, rfl⟩ := List.mem_map.mp hx
    exact hpos s hs
  obtain ⟨hmem, hbd⟩ := foldl_max_zero_spec hne2 hpos2
  constructor
  · obtain ⟨s, hs, heq⟩ := List.mem_map.mp hmem
    exact ⟨s, hs, heq.symm⟩
  · intro s hs
    exact hbd (F s) (List.mem_map_of_mem F hs)

theorem getLastD_mem {α : Type} (d : α) :
    ∀ l : List α, l ≠ [] → l.getLastD d ∈ l
  | [x], _ => by
    rw [List.getLastD_cons]
    exact List.mem_singleton_self x
  | x :: y :: ys, _ => by
    rw [List.getLastD_cons]
    exact List.mem_cons_of_mem x (getLastD_mem x (y :: ys) (by simp))

/-- C1: folding N ≥ 1 fully-parsed samples into a fresh accumulator — each
sample having exactly `numCpus` per-core entries, nonnegative used/percent
readings, and zero GPU fields when no GPU was detected, exactly what
`get_current_usage` writes — yields a window whose per-core entries are the
per-index maxima over the samples, whose used fields (`mem_used_mb`,
`disk_used_mb`, `gpu_proc`, `gpu_mem_used`) are the maxima over the
samples, and whose total/capacity fields (`mem_total_mb`, `disk_total_mb`,
`gpu_mem_total`) are the last folded sample's values (last-write-wins). -/
theorem c1_peak_fold (numCpus : Nat) (gpuType : GPUType)
    (ss : List UsageStats) (hne : ss ≠ [])
    (hlen : ∀ s ∈ ss, s.cpu.length = numCpus)
    (hnn : ∀ s ∈ ss, (∀ i, i < numCpus → 0 ≤ s.cpu.getD i 0) ∧
      0 ≤ s.mem_used_mb ∧ 0 ≤ s.disk_used_mb ∧ 0 ≤ s.gpu_proc ∧
      0 ≤ s.gpu_mem_used)
    (hcpuonly : gpuType = GPUType.CPU_ONLY → ∀ s ∈ ss,
      s.gpu_proc = 0 ∧ s.gpu_mem_used = 0 ∧ s.gpu_mem_total = 0) :
    ∃ w, foldSamples numCpus gpuType (freshStats numCpus) ss = .ok w ∧
      (∀ i, i < numCpus →
        (∃ s ∈ ss, w.cpu.getD i 0 = s.cpu.getD i 0) ∧
        ∀ s ∈ ss, s.cpu.getD i 0 ≤ w.cpu.getD i 0) ∧
      ((∃ s ∈ ss, w.mem_used_mb = s.mem_used_mb) ∧
        ∀ s ∈ ss, s.mem_used_mb ≤ w.mem_used_mb) ∧
      ((∃ s ∈ ss, w.disk_used_mb = s.disk_used_mb) ∧
        ∀ s ∈ ss, s.disk_used_mb ≤ w.disk_used_mb) ∧
      ((∃ s ∈ ss, w.gpu_proc = s.gpu_proc) ∧
        ∀ s ∈ ss, s.gpu_proc ≤ w.gpu_proc) ∧
      ((∃ s ∈ ss, w.gpu_mem_used = s.gpu_mem_used) ∧
        ∀ s ∈ ss, s.gpu_mem_used ≤ w.gpu_mem_used) ∧
      w.mem_total_mb = (ss.getLastD (freshStats numCpus)).mem_total_mb ∧
      w.disk_total_mb = (ss.getLastD (freshStats numCpus)).disk_total_mb ∧
      w.gpu_mem_total = (ss.getLastD (freshStats numCpus)).gpu_mem_total := by
  have hfr : ∀ i, ((freshStats numCpus).cpu).getD i 0 = 0 := by
    intro i
    show (List.replicate numCpus (0 : ℚ)).getD i 0 = 0
    rw [List.getD_eq_getElem?_getD, List.getElem?_replicate]
    split <;> rfl
  obtain ⟨w, hw, hwlen, hwcpu, hwm, hwd, hwmt, hwdt, hwgp, hwgm, hwgt⟩ :=
    foldSamples_ok numCpus gpuType (freshStats numCpus) ss
      (by simp [freshStats]) (fun s hs => (hlen s hs).ge)
  refine ⟨w, hw, ?_, ?_, ?_, ?_, ?_, ?_, ?_, ?_⟩
  · intro i hi
    exact max_over_samples ss hne (fun s => s.cpu.getD i 0)
      (fun s hs => (hnn s hs).1 i hi) _ (by rw [hwcpu i hi, hfr i])
  · exact max_over_samples ss hne (fun s => s.mem_used_mb)
      (fun s hs => (hnn s hs).2.1) _ hwm
  · exact max_over_samples ss hne (fun s => s.disk_used_mb)
      (fun s hs => (hnn s hs).2.2.1) _ hwd
  · by_cases hg : gpuType = GPUType.CPU_ONLY
    · rw [if_pos hg] at hwgp
      obtain ⟨s0, hs0⟩ := List.exists_mem_of_ne_nil ss hne
      constructor
      · exact ⟨s0, hs0, by rw [hwgp, (hcpuonly hg s0 hs0).1]; rfl⟩
      · intro s hs
        rw [(hcpuonly hg s hs).1, hwgp]
        rfl
    · rw [if_neg hg] at hwgp
      exact max_over_samples ss hne (fun s => s.gpu_proc)
        (fun s hs => (hnn s hs).2.2.2.1) _ hwgp
  · by_cases hg : gpuType = GPUType.CPU_ONLY
    · rw [if_pos hg] at hwgm
      obtain ⟨s0, hs0⟩ := List.exists_mem_of_ne_nil ss hne
      constructor
      · exact ⟨s0, hs0, by rw [hwgm, (hcpuonly hg s0 hs0).2.1]; rfl⟩
      · intro s hs
        rw [(hcpuonly hg s hs).2.1, hwgm]
        rfl
    · rw [if_neg hg] at hwgm
      exact max_over_samples ss hne (fun s => s.gpu_mem_used)
        (fun s hs => (hnn s hs).2.2.2.2) _ hwgm
  · rw [hwmt]
    exact getLastD_map (fun s => s.mem_total_mb) (freshStats numCpus) ss
  · rw [hwdt]
    exact getLastD_map (fun s => s.disk_total_mb) (freshStats numCpus) ss
  · by_cases hg : gpuType = GPUType.CPU_ONLY
    · rw [if_pos hg] at hwgt
      rw [hwgt,
        (hcpuonly hg _ (getLastD_mem (freshStats numCpus) ss hne)).2.2]
      rfl
    · rw [if_neg hg] at hwgt
      rw [hwgt]
      exact getLastD_map (fun s => s.gpu_mem_total) (freshStats numCpus) ss

/-- C1 (witness): folding the two concrete single-core samples
cpu=[10] and cpu=[90] (mem 100/1000, disk 10/50 then 20/60) into the
fresh accumulator attains the claimed maxima and last-write totals. -/
theorem c1_witness :
    (([⟨[10], 100, 1000, 10, 50, 0, 0, 0⟩,
       ⟨[90], 100, 1000, 20, 60, 0, 0, 0⟩] : List UsageStats) ≠ []) ∧
    ∃ w, foldSamples 1 GPUType.CPU_ONLY (freshStats 1)
        [⟨[10], 100, 1000, 10, 50, 0, 0, 0⟩,
         ⟨[90], 100, 1000, 20, 60, 0, 0, 0⟩] = .ok w ∧
      (∀ i, i < 1 →
        (∃ s ∈ ([⟨[10], 100, 1000, 10, 50, 0, 0, 0⟩,
            ⟨[90], 100, 1000, 20, 60, 0, 0, 0⟩] : List UsageStats),
          w.cpu.getD i 0 = s.cpu.getD i 0) ∧
        ∀ s ∈ ([⟨[10], 100, 1000, 10, 50, 0, 0, 0⟩,
            ⟨[90], 100, 1000, 20, 60, 0, 0, 0⟩] : List UsageStats),
          s.cpu.getD i 0 ≤ w.cpu.getD i 0) ∧
      ((∃ s ∈ ([⟨[10], 100, 1000, 10, 50, 0, 0, 0⟩,
            ⟨[90], 100, 1000, 20, 60, 0, 0, 0⟩] : List UsageStats),
          w.mem_used_mb = s.mem_used_mb) ∧
        ∀ s ∈ ([⟨[10], 100, 1000, 10, 50, 0, 0, 0⟩,
            ⟨[90], 100, 1000, 20, 60, 0, 0, 0⟩] : List UsageStats),
          s.mem_used_mb ≤ w.mem_used_mb) ∧
      ((∃ s ∈ ([⟨[10], 100, 1000, 10, 50, 0, 0, 0⟩,
            ⟨[90], 100, 1000, 20, 60, 0, 0, 0⟩] : List UsageStats),
          w.disk_used_mb = s.disk_used_mb) ∧
        ∀ s ∈ ([⟨[10], 100, 1000, 10, 50, 0, 0, 0⟩,
            ⟨[90], 100, 1000, 20, 60, 0, 0, 0⟩] : List UsageStats),
          s.disk_used_mb ≤ w.disk_used_mb) ∧
      ((∃ s ∈ ([⟨[10], 100, 1000, 10, 50, 0, 0, 0⟩,
            ⟨[90], 100, 1000, 20, 60, 0, 0, 0⟩] : List UsageStats),
          w.gpu_proc = s.gpu_proc) ∧
        ∀ s ∈ ([⟨[10], 100, 1000, 10, 50, 0, 0, 0⟩,
            ⟨[90], 100, 1000, 20, 60, 0, 0, 0⟩] : List UsageStats),
          s.gpu_proc ≤ w.gpu_proc) ∧
      ((∃ s ∈ ([⟨[10], 100, 1000, 10, 50, 0, 0, 0⟩,
            ⟨[90], 100, 1000, 20, 60, 0, 0, 0⟩] : List UsageStats),
          w.gpu_mem_used = s.gpu_mem_used) ∧
        ∀ s ∈ ([⟨[10], 100, 1000, 10, 50, 0, 0, 0⟩,
            ⟨[90], 100, 1000, 20, 60, 0, 0, 0⟩] : List UsageStats),
          s.gpu_mem_used ≤ w.gpu_mem_used) ∧
      w.mem_total_mb = (([⟨[10], 100, 1000, 10, 50, 0, 0, 0⟩,
          ⟨[90], 100, 1000, 20, 60, 0, 0, 0⟩] : List UsageStats).getLastD
            (freshStats 1)).mem_total_mb ∧
      w.disk_total_mb = (([⟨[10], 100, 1000, 10, 50, 0, 0, 0⟩,
          ⟨[90], 100, 1000, 20, 60, 0, 0, 0⟩] : List UsageStats).getLastD
            (freshStats 1)).disk_total_mb ∧
      w.gpu_mem_total = (([⟨[10], 100, 1000, 10, 50, 0, 0, 0⟩,
          ⟨[90], 100, 1000, 20, 60, 0, 0, 0⟩] : List UsageStats).getLastD
            (freshStats 1)).gpu_mem_total :=
  ⟨by decide,
    c1_peak_fold 1 GPUType.CPU_ONLY
      [⟨[10], 100, 1000, 10, 50, 0, 0, 0⟩,
       ⟨[90], 100, 1000, 20, 60, 0, 0, 0⟩]
      (by decide) (by decide) (by decide) (by decide)⟩

end VMon
